import Mathlib

/-!
# Verification of the Slack relay middleware core

A shallow embedding, in Lean 4, of the session/token cache and message-relay
orchestrator of the `RelayMiddleware` class (Slack ↔ Copilot Studio bridge).
Each definition below mirrors one method of the source class; JavaScript
runtime behaviours that matter to the claims (truthiness of optional values,
`String.prototype.trim`, `Map` get/set/delete semantics) are modelled
explicitly.  The JWT base64/JSON decoding done by the `Buffer`/`JSON`
built-ins is treated as an external collaborator: an abstract function
`String → Option (Option Int)` returning the decoded numeric `exp` claim
(`none` = the credential is not a decodable three-segment JWT, `some none` =
decodable but without a numeric `exp`, `some (some e)` = numeric `exp` `e`).
-/

namespace SlackRelay

/-! ## JavaScript value modelling -/

/-- JS truthiness of a possibly-absent string: `undefined`/`null` and the
empty string are falsy. -/
def strTruthy : Option String → Bool
  | none => false
  | some s => s ≠ ""

/-- JS `String.prototype.trim` on the character-list level: drop whitespace
from both ends. -/
def jsTrimList (l : List Char) : List Char :=
  ((l.dropWhile Char.isWhitespace).reverse.dropWhile Char.isWhitespace).reverse

/-- JS `String.prototype.trim`. -/
def jsTrim (s : String) : String := ⟨jsTrimList s.data⟩

/-! ## JS `Map` modelled as an association list (first match wins) -/

/-- `Map.prototype.get`. -/
def mapGet {α : Type} : List (String × α) → String → Option α
  | [], _ => none
  | (k', v) :: t, k => if k' = k then some v else mapGet t k

/-- `Map.prototype.set`: replace in place if the key exists, otherwise append. -/
def mapSet {α : Type} : List (String × α) → String → α → List (String × α)
  | [], k, v => [(k, v)]
  | (k', v') :: t, k, v =>
    if k' = k then (k, v) :: t else (k', v') :: mapSet t k v

/-- `Map.prototype.delete`. -/
def mapDelete {α : Type} : List (String × α) → String → List (String × α)
  | [], _ => []
  | (k', v) :: t, k => if k' = k then mapDelete t k else (k', v) :: mapDelete t k

/-- The keys of a map hold no duplicates (always true of an actual JS `Map`). -/
def keysNodup {α : Type} (m : List (String × α)) : Prop :=
  (m.map Prod.fst).Nodup

/-! ## TokenStore (the `userTokens` map)

`storeUserToken` / `getUserToken` / `revokeUserToken` of the source.  A
stored value is either the legacy bare-string shape or the structured
record `{token, storedAt, lastUsed, expiresAt}` the current code writes. -/

/-- The structured token record written by `storeUserToken`. -/
structure StoredToken where
  token : String
  storedAt : Int
  lastUsed : Int
  expiresAt : Option Int
  deriving Repr, DecidableEq

/-- A value of the `userTokens` map: legacy bare string or structured record. -/
inductive TokenData where
  | legacy (tok : String)
  | structured (rec : StoredToken)
  deriving Repr, DecidableEq

/-- Abstract JWT payload decoding collaborator (split into three dot-separated
segments, base64-decode the middle one, `JSON.parse`, read `.exp`). -/
abbrev JwtDecode := String → Option (Option Int)

/-- `storeUserToken(slackUserId, accessToken)`: decode the `exp` claim if
possible (`if (payload.exp)` is a JS truthiness test, so a decoded `exp` of
`0` is treated like an absent claim) and store the structured record,
overwriting any existing entry. -/
def storeUserToken (dec : JwtDecode) (now : Int)
    (store : List (String × TokenData)) (slackUserId accessToken : String) :
    List (String × TokenData) :=
  let expiresAt : Option Int :=
    match dec accessToken with
    | some (some e) => if e ≠ 0 then some (e * 1000) else none
    | _ => none
  mapSet store slackUserId
    (.structured { token := accessToken, storedAt := now, lastUsed := now,
                   expiresAt := expiresAt })

/-- `getUserToken(slackUserId)`: returns the credential (or `none`) together
with the updated map (expired records are deleted; a valid structured record
has its `lastUsed` refreshed). -/
def getUserToken (dec : JwtDecode) (now : Int)
    (store : List (String × TokenData)) (slackUserId : String) :
    Option String × List (String × TokenData) :=
  match mapGet store slackUserId with
  | none => (none, store)
  | some (.legacy tok) =>
    -- legacy shape: read-through decode for expiration on every call
    match dec tok with
    | some (some e) =>
      if e ≠ 0 then
        if now > e * 1000 then (none, mapDelete store slackUserId)
        else (some tok, store)
      else (some tok, store)
    | _ => (some tok, store)
  | some (.structured d) =>
    -- `if (tokenData.expiresAt && now > tokenData.expiresAt)`: truthiness
    -- again, a stored `expiresAt` of 0 is falsy
    match d.expiresAt with
    | some ea =>
      if ea ≠ 0 ∧ now > ea then (none, mapDelete store slackUserId)
      else (some d.token,
            mapSet store slackUserId (.structured { d with lastUsed := now }))
    | none =>
      (some d.token,
       mapSet store slackUserId (.structured { d with lastUsed := now }))

/-- `revokeUserToken(slackUserId)`. -/
def revokeUserToken (store : List (String × TokenData)) (slackUserId : String) :
    Bool × List (String × TokenData) :=
  ((mapGet store slackUserId).isSome, mapDelete store slackUserId)

/-! ## ServiceTokenCache (`serviceTokenCache` cell and `getServiceToken`) -/

/-- The cached service credential: `{ token, expiresAt }`. -/
structure ServiceTokenCache where
  token : Option String
  expiresAt : Int
  deriving Repr, DecidableEq

/-- What `msalInstance.acquireTokenByClientCredential` resolves to. -/
structure ProviderResponse where
  accessToken : String
  expiresOn : Option Int
  deriving Repr, DecidableEq

/-- The refresh arm of `getServiceToken`: ask the identity provider, cache
the new token with its returned expiration (defaulting to now + 1h); on
failure clear the cache and propagate the error.  The `Bool` records that
the provider was invoked. -/
def serviceRefresh (now : Int) (provider : Except String ProviderResponse) :
    Except String String × ServiceTokenCache × Bool :=
  match provider with
  | .ok r =>
    let exp : Int :=
      match r.expiresOn with
      | some e => e
      | none => now + 3600000
    (.ok r.accessToken, { token := some r.accessToken, expiresAt := exp }, true)
  | .error e => (.error e, { token := none, expiresAt := 0 }, true)

/-- `getServiceToken()`: return the cached token if it is truthy and
`now < expiresAt - 300000` (5-minute buffer), else refresh. -/
def getServiceToken (now : Int) (provider : Except String ProviderResponse)
    (c : ServiceTokenCache) : Except String String × ServiceTokenCache × Bool :=
  match c.token with
  | some t =>
    if t ≠ "" ∧ now < c.expiresAt - 300000 then (.ok t, c, false)
    else serviceRefresh now provider
  | none => serviceRefresh now provider

/-! ## Upstream response fragments ("activities") -/

/-- A button of an OAuth card (`content.buttons[i]`). -/
structure CardButton where
  type : String
  value : Option String
  deriving Repr, DecidableEq

/-- The `content` of an attachment (OAuth card). -/
structure CardContent where
  buttons : Option (List CardButton)
  text : Option String
  deriving Repr, DecidableEq

/-- An attachment of an activity. -/
structure Attachment where
  contentType : String
  content : Option CardContent
  deriving Repr, DecidableEq

/-- One upstream response fragment (`activity`). -/
structure Activity where
  type : String
  text : Option String
  name : Option String
  attachments : Option (List Attachment)
  deriving Repr, DecidableEq

/-- The content type marking a sign-in (OAuth) card attachment. -/
def oauthCardContentType : String := "application/vnd.microsoft.card.oauth"

/-- The `name` tag marking a consent-request fragment. -/
def consentCardName : String := "connectors/consentCard"

/-! ## `handleUserSignInCard` -/

/-- Fixed reply when the first attachment is missing or not an OAuth card. -/
def signInNoLinkMsg : String :=
  "I need you to sign in, but I could not find the sign-in link. Please try again."

/-- Fixed reply when the sign-in button or its URL is missing. -/
def signInLinkMissingMsg : String :=
  "I need you to sign in, but the link is missing. Please contact support."

/-- Default prompt when the card carries no (truthy) `text`. -/
def signInDefaultPrompt : String := "Please sign in to continue."

/-- `cardContent?.buttons` with optional chaining: the card's button list,
empty when the attachment has no content or no buttons. -/
def cardButtons (att : Attachment) : List CardButton :=
  match att.content with
  | some cc => cc.buttons.getD []
  | none => []

/-- `cardContent.text || 'Please sign in to continue.'` (JS truthiness). -/
def cardPrompt (att : Attachment) : String :=
  match att.content with
  | some cc => if strTruthy cc.text then cc.text.getD "" else signInDefaultPrompt
  | none => signInDefaultPrompt

/-- `handleUserSignInCard(userSignInCard)`: extract the sign-in link from the
first attachment and compose the Slack reply; every failure is downgraded to
a fixed message (the function is total, mirroring the source's `try/catch`
around only-optional-chaining code that cannot throw). -/
def handleUserSignInCard (userSignInCard : Activity) : String :=
  match (userSignInCard.attachments.getD []).head? with
  | none => signInNoLinkMsg
  | some attachment =>
    if attachment.contentType ≠ oauthCardContentType then signInNoLinkMsg
    else
      -- `cardContent?.buttons?.find(b => b.type === 'signin')`
      match (cardButtons attachment).find? (fun b => b.type == "signin") with
      | none => signInLinkMissingMsg
      | some b =>
        if strTruthy b.value then
          cardPrompt attachment ++ "\n\nClick here to sign in: <" ++
            b.value.getD "" ++ "|Sign In>"
        else signInLinkMissingMsg

/-! ## Classification of a turn's fragments (`sendMessage`, lines 467–494) -/

/-- The mutable accumulators of the `replies.forEach` classification loop. -/
structure ClassifyAcc where
  responseText : String
  consentCard : Option Activity
  userSignInCard : Option Activity
  deriving Repr, DecidableEq

/-- One iteration of the classification loop. -/
def classifyStep (acc : ClassifyAcc) (activity : Activity) : ClassifyAcc :=
  if activity.type == "message" && strTruthy activity.text then
    { acc with responseText := acc.responseText ++ activity.text.getD "" ++ " " }
  else if activity.name == some consentCardName then
    { acc with consentCard := some activity }
  else if activity.type == "message" && !strTruthy activity.text then
    if (activity.attachments.getD []).any
        (fun att => att.contentType == oauthCardContentType) then
      { acc with userSignInCard := some activity }
    else acc
  else acc

/-- The classification loop over a turn's fragments. -/
def classify (replies : List Activity) : ClassifyAcc :=
  replies.foldl classifyStep ⟨"", none, none⟩

/-- Fixed acknowledgment substituted after auto-resolving a consent card. -/
def consentAckMsg : String :=
  "I\x27ve sent the consent approval. Please wait a moment for the process to complete."

/-- Fixed fallback when the turn produced no text and no consent card. -/
def noResponseMsg : String := "No response from Copilot Studio"

/-- The primary-reply resolution (`sendMessage`, lines 497–508). -/
def resolvePrimary (c : ClassifyAcc) : String :=
  if jsTrim c.responseText ≠ "" then jsTrim c.responseText
  else if c.consentCard.isSome then consentAckMsg
  else noResponseMsg

/-- The final reply of a turn: the primary reply, with the extracted sign-in
text appended when a sign-in card was captured (lines 510–513). -/
def resolveFinal (replies : List Activity) : String :=
  let c := classify replies
  let primary := resolvePrimary c
  match c.userSignInCard with
  | some card => primary ++ " " ++ handleUserSignInCard card
  | none => primary

/-! ## ConnectionRegistry (the `activeConnections` map) -/

/-- One stored connection (`{ client, conversationId, conversationActivity,
lastActivity, userId }`; the SDK client and the raw conversation activity are
opaque collaborator values and carry no information the core reads, so they
are not represented). -/
structure Connection where
  conversationId : Option String
  lastActivity : Int
  userId : String
  deriving Repr, DecidableEq

/-- What `createAgentsConnection` extracts from the upstream
`startConversationAsync` call: `conversationActivity.conversation?.id`. -/
structure ConvInfo where
  conversationId : Option String
  deriving Repr, DecidableEq

/-- The whole middleware state: the two maps and the service-token cell. -/
structure MWState where
  activeConnections : List (String × Connection)
  userTokens : List (String × TokenData)
  serviceTokenCache : ServiceTokenCache
  deriving Repr, DecidableEq

/-- Observable registry-level operations performed during a call, recorded in
order: an upstream conversation start, a `Map.set` on `activeConnections`, a
`Map.delete` on `activeConnections`. -/
inductive RegistryEv where
  | conversationStarted
  | regSet (uid : String)
  | regDelete (uid : String)
  deriving Repr, DecidableEq

/-- The external collaborators of one call, resolved: the wall clock, the
identity provider's reply, the upstream conversation-start reply, the
upstream `askQuestionAsync` replies (indexed by invocation number within the
call), and the result of posting the Slack "thinking" message (`none` when
no Slack client is available or the post failed — both swallowed by the
source). -/
structure PostInfo where
  ts : String
  channel : String
  deriving Repr, DecidableEq

structure Env where
  now : Int
  provider : Except String ProviderResponse
  startConv : Except String ConvInfo
  ask : Nat → Except String (List Activity)
  postResult : Option PostInfo

/-- The tail of `createUserConnection` after the credential is at hand:
`createAgentsConnection` (the upstream `startConversationAsync`), then the
`Map.set` storing the new connection.  A start failure is re-thrown. -/
def createWithStart (env : Env) (st : MWState) (userId : String)
    (cache : ServiceTokenCache) :
    MWState × List RegistryEv × Except String Connection :=
  let st1 := { st with serviceTokenCache := cache }
  match env.startConv with
  | .error e => (st1, [.conversationStarted], .error e)
  | .ok info =>
    let connection : Connection :=
      { conversationId := info.conversationId, lastActivity := env.now,
        userId := userId }
    ({ st1 with
         activeConnections := mapSet st1.activeConnections userId connection },
     [.conversationStarted, .regSet userId], .ok connection)

/-- Dispatch on the outcome of the credential-resolution step. -/
def createWithToken (env : Env) :
    Except String String × ServiceTokenCache × Bool →
    MWState → String → MWState × List RegistryEv × Except String Connection
  | (.error e, cache, _), st, _ => ({ st with serviceTokenCache := cache }, [], .error e)
  | (.ok _, cache, _), st, userId => createWithStart env st userId cache

/-- `createUserConnection(userId, userToken)`: resolve a credential
(`userToken || await this.getServiceToken()` — JS truthiness, so an empty
user token falls through to the service token), start an upstream
conversation, store the new connection under `userId` by a plain `Map.set`
(no prior invalidation), and return it.  Errors are re-thrown; the state
reached so far (e.g. a cleared service-token cache) is kept. -/
def createUserConnection (env : Env) (st : MWState) (userId : String)
    (userToken : Option String) :
    MWState × List RegistryEv × Except String Connection :=
  createWithToken env
    (if strTruthy userToken then (.ok (userToken.getD ""), st.serviceTokenCache, false)
     else getServiceToken env.now env.provider st.serviceTokenCache)
    st userId

/-- `clearUserConnection(userId)`. -/
def clearUserConnection (st : MWState) (userId : String) : Bool × MWState :=
  ((mapGet st.activeConnections userId).isSome,
   { st with activeConnections := mapDelete st.activeConnections userId })

/-- `newConversation(userId)`: delete the existing connection, then create a
fresh one. -/
def newConversation (env : Env) (st : MWState) (userId : String) :
    MWState × List RegistryEv × Except String Connection :=
  let st0 := { st with activeConnections := mapDelete st.activeConnections userId }
  match createUserConnection env st0 userId none with
  | (st', evs, r) => (st', .regDelete userId :: evs, r)

/-! ## Consent sub-protocol (`handleConsentCardResponse`)

The source function recurses on itself for every consent-named fragment of
the resend reply, but the recursive call `this.handleConsentCardResponse(activity)`
passes no `userId`, so the callee's `this.activeConnections.get(undefined)`
finds nothing and returns at once.  The recursion has no structural bound in
the source, so it is embedded with explicit fuel; the theorems below show the
result is fuel-independent from depth 2 on. -/

/-- `JSON.stringify(consentPayload)` — the fixed "Allow" postback payload. -/
def consentPayloadJson : String :=
  "\x7b\"type\":\"message\",\"channelData\":\x7b\"postBack\":true,\"enableDiagnostics\":true\x7d,\"value\":\x7b\"action\":\"Allow\",\"id\":\"submit\",\"shouldAwaitUserInput\":true\x7d\x7d"

/-- Outcome of a `handleConsentCardResponse` call: fuel ran out (models a
hypothetically unbounded recursion), the upstream resend rejected, or the
call returned normally having performed `sends` consent-approval resends. -/
inductive ConsentOutcome where
  | outOfFuel
  | failed (e : String)
  | done (sends : Nat)
  deriving Repr, DecidableEq

/-- `handleConsentCardResponse(activity, userId)` with fuel.  `uidOpt = none`
models the arity-1 recursive call (the `userId` parameter is `undefined`).
The `activity` argument is carried but, as in the source, never read except
for logging. -/
def handleConsentCardResponseFuel
    (ask : String → Option String → Except String (List Activity))
    (conns : List (String × Connection)) :
    Nat → Activity → Option String → ConsentOutcome
  | 0, _, _ => .outOfFuel
  | fuel + 1, _, uidOpt =>
    -- `this.activeConnections.get(userId)`: the map is keyed by strings, so a
    -- lookup under `undefined` (`uidOpt = none`) finds nothing
    match uidOpt with
    | none => .done 0
    | some uid =>
    match mapGet conns uid with
    | none => .done 0
    | some connection =>
      match ask consentPayloadJson connection.conversationId with
      | .error e => .failed e
      | .ok responses =>
        responses.foldl
          (fun acc a =>
            match acc with
            | .done n =>
              if a.name == some consentCardName then
                match handleConsentCardResponseFuel ask conns fuel a none with
                | .done m => .done (n + m)
                | other => other
              else .done n
            | other => other)
          (.done 1)

/-! ## `cleanup()` (the janitor sweep) -/

/-- The fixed 24-hour token age used by the token phase of `cleanup`. -/
def tokenMaxAgeMs : Int := 24 * 60 * 60 * 1000

/-- The connection-eviction phase: delete every session whose
`now - lastActivity > maxAge`. -/
def cleanupConnections (now maxAge : Int)
    (conns : List (String × Connection)) : List (String × Connection) :=
  conns.filter (fun p => ¬ (now - p.2.lastActivity > maxAge))

/-- The token phase's eviction predicate (it reads the already-swept
connection map, since the source's connection loop runs first). -/
def shouldCleanupToken (now : Int) (conns : List (String × Connection))
    (p : String × TokenData) : Bool :=
  match p.2 with
  | .legacy _ =>
    match mapGet conns p.1 with
    | none => true
    | some connection => now - connection.lastActivity > tokenMaxAgeMs
  | .structured d =>
    -- `if (tokenData.lastUsed && (now - tokenData.lastUsed) > tokenMaxAge)`
    d.lastUsed ≠ 0 && now - d.lastUsed > tokenMaxAgeMs

/-- `cleanup()`: sweep stale connections, then stale tokens, then an expired
service token. -/
def cleanup (now maxAge : Int) (st : MWState) : MWState :=
  let conns' := cleanupConnections now maxAge st.activeConnections
  let tokens' := st.userTokens.filter (fun p => ¬ shouldCleanupToken now conns' p = true)
  let cache := st.serviceTokenCache
  let cache' : ServiceTokenCache :=
    match cache.token with
    | some t =>
      if t ≠ "" ∧ now > cache.expiresAt then { token := none, expiresAt := 0 }
      else cache
    | none => cache
  { activeConnections := conns', userTokens := tokens', serviceTokenCache := cache' }

/-! ## `sendMessage` — one chat turn -/

/-- A Slack-side effect of the turn (the `chat.update` rewriting the
"thinking" message with some text). -/
inductive SlackOp where
  | update (channel ts text : String)
  deriving Repr, DecidableEq

/-- The apology text written into the thinking message on failure. -/
def turnErrorMsg : String :=
  "Sorry, I encountered an error processing your message. Please try again."

/-- `if (thinkingMessage?.ts && thinkingMessage?.channel)` followed by
`updateThinkingMessage(...)` — truthiness on both fields. -/
def updateIfThinking (thinking : Option PostInfo) (text : String) : List SlackOp :=
  match thinking with
  | some p => if p.ts ≠ "" ∧ p.channel ≠ "" then [.update p.channel p.ts text] else []
  | none => []

deriving instance DecidableEq for Except

/-- Everything one `sendMessage` call produces: the new state, the registry
events performed, the Slack updates performed, and the function's own result
(`.ok t` models resolving with `{ text: t }`; `.error e` models the re-thrown
error). -/
structure TurnOut where
  st : MWState
  events : List RegistryEv
  slackOps : List SlackOp
  result : Except String String
  consentResends : Nat
  deriving Repr, DecidableEq

/-- The consent branch of `sendMessage` (lines 500–505): when the trimmed
accumulated text is empty and a consent card was captured, auto-resolve it
(the sub-protocol runs at recursion budget 2, which the consent lemmas show
is exact for this code); the number of approval resends is returned. -/
def consentStepRun (env : Env) (st : MWState) (userId : String)
    (c : ClassifyAcc) : Except String Nat :=
  if jsTrim c.responseText = "" then
    match c.consentCard with
    | some card =>
      match handleConsentCardResponseFuel (fun _ _ => env.ask 1)
          st.activeConnections 2 card (some userId) with
      | .failed e => .error e
      | .done n => .ok n
      | .outOfFuel => .ok 0
    | none => .ok 0
  else .ok 0

/-- `connection.lastActivity = Date.now()`: the in-place refresh of the
stored connection object after a successful turn. -/
def touchConn (conn : Connection) (now : Int) : Connection :=
  { conn with lastActivity := now }

/-- The tail of `sendMessage` once a connection is at hand (lines 457–527):
ask the question, classify the replies, auto-resolve a pending consent card,
append sign-in text, update the thinking message, refresh `lastActivity`,
and return `{ text: '' }`. -/
def sendMessageWithConn (env : Env) (st : MWState)
    (thinking : Option PostInfo) (userId : String) (connection : Connection)
    (evs : List RegistryEv) : TurnOut :=
  match env.ask 0 with
  | .error e =>
    { st := st, events := evs, slackOps := updateIfThinking thinking turnErrorMsg,
      result := .error e, consentResends := 0 }
  | .ok replies =>
    match consentStepRun env st userId (classify replies) with
    | .error e =>
      { st := st, events := evs, slackOps := updateIfThinking thinking turnErrorMsg,
        result := .error e, consentResends := 0 }
    | .ok sends =>
      let finalResponse := resolveFinal replies
      let st' : MWState :=
        { st with activeConnections :=
            mapSet st.activeConnections userId (touchConn connection env.now) }
      { st := st', events := evs,
        slackOps := updateIfThinking thinking finalResponse,
        result := .ok "", consentResends := sends }

/-- `sendMessage(userId, messageText, userToken)`.  The `messageText`
argument is forwarded verbatim upstream (inside `env.ask`) and does not
otherwise influence the turn. -/
def sendMessage (env : Env) (st : MWState) (userId : String)
    (userToken : Option String) : TurnOut :=
  let thinking := env.postResult
  match mapGet st.activeConnections userId with
  | some connection => sendMessageWithConn env st thinking userId connection []
  | none =>
    match createUserConnection env st userId userToken with
    | (st', evs, .error e) =>
      { st := st', events := evs,
        slackOps := updateIfThinking thinking turnErrorMsg, result := .error e,
        consentResends := 0 }
    | (st', evs, .ok connection) =>
      sendMessageWithConn env st' thinking userId connection evs

/-! ## Map lemmas -/

theorem mapGet_mapSet_self {α : Type} (m : List (String × α)) (k : String) (v : α) :
    mapGet (mapSet m k v) k = some v := by
  induction m with
  | nil => simp [mapSet, mapGet]
  | cons hd tl ih =>
    obtain ⟨k1, v1⟩ := hd
    by_cases h : k1 = k
    · simp [mapSet, mapGet, h]
    · simp [mapSet, mapGet, h, ih]

theorem mapGet_mapSet_ne {α : Type} (m : List (String × α)) (k k' : String) (v : α)
    (h : k ≠ k') : mapGet (mapSet m k v) k' = mapGet m k' := by
  induction m with
  | nil => simp [mapSet, mapGet, h]
  | cons hd tl ih =>
    obtain ⟨k1, v1⟩ := hd
    have hs : k' ≠ k := Ne.symm h
    by_cases hh : k1 = k
    · subst hh
      simp [mapSet, mapGet, h, hs]
    · by_cases hk' : k1 = k' <;> simp [mapSet, mapGet, hh, hk', ih, h, hs]

theorem mapGet_eq_none_of_not_mem {α : Type} (m : List (String × α)) (k : String)
    (h : k ∉ m.map Prod.fst) : mapGet m k = none := by
  induction m with
  | nil => rfl
  | cons hd tl ih =>
    obtain ⟨k1, v1⟩ := hd
    simp only [List.map_cons, List.mem_cons] at h
    push_neg at h
    have h1 : k1 ≠ k := fun hh => h.1 hh.symm
    simp [mapGet, h1, ih h.2]

theorem mapGet_filter_of_none {α : Type} (p : String × α → Bool)
    (m : List (String × α)) (k : String) (h : mapGet m k = none) :
    mapGet (m.filter p) k = none := by
  induction m with
  | nil => rfl
  | cons hd tl ih =>
    obtain ⟨k1, v1⟩ := hd
    simp only [mapGet] at h
    by_cases hk : k1 = k
    · simp [hk] at h
    · simp only [hk, if_false] at h
      by_cases hp : p (k1, v1)
      · simp [List.filter_cons, hp, mapGet, hk, ih h]
      · simp [List.filter_cons, hp, ih h]

theorem mapGet_mapDelete_self {α : Type} (m : List (String × α)) (k : String) :
    mapGet (mapDelete m k) k = none := by
  induction m with
  | nil => rfl
  | cons hd tl ih =>
    obtain ⟨k1, v1⟩ := hd
    by_cases hk : k1 = k
    · simp [mapDelete, hk, ih]
    · simp [mapDelete, hk, mapGet, ih]

theorem mapGet_mapDelete_ne {α : Type} (m : List (String × α)) (k k' : String)
    (h : k ≠ k') : mapGet (mapDelete m k) k' = mapGet m k' := by
  induction m with
  | nil => rfl
  | cons hd tl ih =>
    obtain ⟨k1, v1⟩ := hd
    have hs : k' ≠ k := Ne.symm h
    by_cases hk : k1 = k
    · have h2 : k1 ≠ k' := by rw [hk]; exact h
      simp [mapDelete, hk, mapGet, h2, ih, h, hs]
    · by_cases hk' : k1 = k' <;> simp [mapDelete, hk, mapGet, hk', ih, h, hs]

/-- `mapGet` through a `filter`, assuming the JS-`Map` invariant that keys are
unique: the filtered map holds `k` exactly when the original does and the
entry passes the predicate, unchanged. -/
theorem mapGet_filter {α : Type} (p : String × α → Bool) (m : List (String × α))
    (k : String) (h : keysNodup m) :
    mapGet (m.filter p) k =
      match mapGet m k with
      | some v => if p (k, v) then some v else none
      | none => none := by
  induction m with
  | nil => rfl
  | cons hd tl ih =>
    obtain ⟨k1, v1⟩ := hd
    have hnd : keysNodup tl := (List.nodup_cons.mp h).2
    have hhd : k1 ∉ tl.map Prod.fst := by
      simpa using (List.nodup_cons.mp h).1
    by_cases hk : k1 = k
    · subst hk
      by_cases hp : p (k1, v1)
      · simp [List.filter_cons, hp, mapGet]
      · simp only [List.filter_cons, hp, Bool.false_eq_true, if_false, mapGet, if_pos rfl]
        rw [mapGet_filter_of_none p tl k1 (mapGet_eq_none_of_not_mem tl k1 hhd)]
        simp [hp]
    · have htl := ih hnd
      by_cases hp : p (k1, v1)
      · simp only [List.filter_cons, hp, if_pos, mapGet, hk, if_false]
        exact htl
      · simp only [List.filter_cons, hp, Bool.false_eq_true, if_false, mapGet, hk]
        simpa [mapGet, hk] using htl

/-- The keys of `mapSet m k v` are among the keys of `m` plus `k`. -/
theorem mem_keys_mapSet {α : Type} (m : List (String × α)) (k k' : String) (v : α)
    (h : k' ∈ (mapSet m k v).map Prod.fst) : k' ∈ m.map Prod.fst ∨ k' = k := by
  induction m with
  | nil =>
    refine .inr ?_
    simpa [mapSet] using h
  | cons hd tl ih =>
    obtain ⟨k1, v1⟩ := hd
    by_cases hk : k1 = k
    · subst hk
      rw [show mapSet ((k1, v1) :: tl) k1 v = (k1, v) :: tl from by simp [mapSet],
          List.map_cons] at h
      rcases List.mem_cons.mp h with h1 | h1
      · exact .inr h1
      · refine .inl ?_
        rw [List.map_cons]
        exact List.mem_cons.mpr (.inr h1)
    · rw [show mapSet ((k1, v1) :: tl) k v = (k1, v1) :: mapSet tl k v from by
            simp [mapSet, hk],
          List.map_cons] at h
      rcases List.mem_cons.mp h with h1 | h1
      · refine .inl ?_
        rw [List.map_cons]
        exact List.mem_cons.mpr (.inl h1)
      · rcases ih h1 with h2 | h2
        · refine .inl ?_
          rw [List.map_cons]
          exact List.mem_cons.mpr (.inr h2)
        · exact .inr h2

theorem keysNodup_mapSet {α : Type} (m : List (String × α)) (k : String) (v : α)
    (h : keysNodup m) : keysNodup (mapSet m k v) := by
  induction m with
  | nil => simp [mapSet, keysNodup]
  | cons hd tl ih =>
    obtain ⟨k1, v1⟩ := hd
    have hnd : keysNodup tl := (List.nodup_cons.mp h).2
    have hhd : k1 ∉ tl.map Prod.fst := by
      simpa using (List.nodup_cons.mp h).1
    by_cases hk : k1 = k
    · subst hk
      rw [show mapSet ((k1, v1) :: tl) k1 v = (k1, v) :: tl from by simp [mapSet]]
      show (List.map Prod.fst ((k1, v) :: tl)).Nodup
      rw [List.map_cons]
      exact List.nodup_cons.mpr ⟨hhd, hnd⟩
    · have hset : keysNodup (mapSet tl k v) := ih hnd
      rw [show mapSet ((k1, v1) :: tl) k v = (k1, v1) :: mapSet tl k v from by
            simp [mapSet, hk]]
      show (List.map Prod.fst ((k1, v1) :: mapSet tl k v)).Nodup
      rw [List.map_cons]
      refine List.nodup_cons.mpr ⟨?_, hset⟩
      intro hmem
      rcases mem_keys_mapSet tl k k1 v hmem with h1 | h1
      · exact hhd h1
      · exact hk h1

/-! ## String and trim lemmas -/

theorem string_data_mk (l : List Char) : (String.mk l).data = l := rfl

theorem jsTrim_append_space (s : String) : jsTrim (s ++ " ") = jsTrim s := by
  unfold jsTrim jsTrimList
  rw [String.data_append]
  have hsp : (" " : String).data = [' '] := rfl
  rw [hsp]
  rcases hd : s.data.dropWhile Char.isWhitespace with _ | ⟨c, cs⟩
  · rw [List.dropWhile_append, hd]
    simp [List.dropWhile]
  · rw [List.dropWhile_append, hd]
    have : ((c :: cs).isEmpty) = false := rfl
    simp only [this, Bool.false_eq_true, if_false]
    rw [show (c :: cs) ++ [' '] = c :: (cs ++ [' ']) from rfl]
    congr 1
    rw [show (c :: (cs ++ [' '])).reverse = ' ' :: (c :: cs).reverse from by simp]
    rw [List.dropWhile]
    simp [Char.isWhitespace]

/-- The claim's "space-separated, order-preserving concatenation". -/
def spaceJoin : List String → String
  | [] => ""
  | [t] => t
  | t :: t' :: ts => t ++ " " ++ spaceJoin (t' :: ts)

/-- The string built by the source's accumulation (`responseText += text + ' '`). -/
def joinTrail : List String → String
  | [] => ""
  | t :: ts => t ++ " " ++ joinTrail ts

theorem getLast?_cons_of_ne {α : Type} (a : α) (xs : List α) (h : xs ≠ []) :
    (a :: xs).getLast? = xs.getLast? := by
  cases xs with
  | nil => exact absurd rfl h
  | cons b l => exact List.getLast?_cons_cons ..

theorem joinTrail_eq_spaceJoin_append (ts : List String) (h : ts ≠ []) :
    joinTrail ts = spaceJoin ts ++ " " := by
  induction ts with
  | nil => exact absurd rfl h
  | cons t ts ih =>
    cases ts with
    | nil =>
      rw [joinTrail, joinTrail, spaceJoin, String.append_empty]
    | cons t' ts' =>
      rw [joinTrail, ih (by simp), spaceJoin]
      simp [String.append_assoc]

theorem jsTrim_joinTrail (ts : List String) :
    jsTrim (joinTrail ts) = jsTrim (spaceJoin ts) := by
  cases ts with
  | nil => rfl
  | cons t ts' =>
    rw [joinTrail_eq_spaceJoin_append (t :: ts') (by simp), jsTrim_append_space]

/-! ## Claim-level classification predicates -/

/-- A fragment contributing reply text: `type === 'message'` with truthy text. -/
def isTextFrag (a : Activity) : Bool :=
  a.type == "message" && strTruthy a.text

/-- A fragment captured as the pending consent card: consent-named, and not
already consumed by the text branch. -/
def isConsentFrag (a : Activity) : Bool :=
  !isTextFrag a && a.name == some consentCardName

/-- A fragment captured as the pending sign-in card: a message without text,
not consent-named, with an OAuth-card attachment. -/
def isSignInFrag (a : Activity) : Bool :=
  !isTextFrag a && !(a.name == some consentCardName) &&
    (a.type == "message" && !strTruthy a.text) &&
    (a.attachments.getD []).any (fun att => att.contentType == oauthCardContentType)

/-- The texts of the message fragments with truthy text, in order. -/
def textsOf (replies : List Activity) : List String :=
  replies.filterMap (fun a => if isTextFrag a then some (a.text.getD "") else none)

theorem classifyStep_eq (acc : ClassifyAcc) (a : Activity) :
    classifyStep acc a =
      { responseText :=
          if isTextFrag a then acc.responseText ++ a.text.getD "" ++ " "
          else acc.responseText,
        consentCard := if isConsentFrag a then some a else acc.consentCard,
        userSignInCard := if isSignInFrag a then some a else acc.userSignInCard } := by
  by_cases h1 : isTextFrag a = true
  · have hc : isConsentFrag a = false := by simp [isConsentFrag, h1]
    have hs : isSignInFrag a = false := by simp [isSignInFrag, h1]
    have h1' : (a.type == "message" && strTruthy a.text) = true := h1
    simp [classifyStep, h1', h1, hc, hs]
  · rw [Bool.not_eq_true] at h1
    have h1' : (a.type == "message" && strTruthy a.text) = false := h1
    by_cases h2 : (a.name == some consentCardName) = true
    · have hc : isConsentFrag a = true := by simp [isConsentFrag, isTextFrag, h1', h2]
      have hs : isSignInFrag a = false := by simp [isSignInFrag, h2]
      simp [classifyStep, h1', h1, h2, hc, hs]
    · rw [Bool.not_eq_true] at h2
      have hc : isConsentFrag a = false := by simp [isConsentFrag, h2]
      by_cases h3 : (a.type == "message" && !strTruthy a.text) = true
      · by_cases h4 : ((a.attachments.getD []).any
            (fun att => att.contentType == oauthCardContentType)) = true
        · have hs : isSignInFrag a = true := by
            simp [isSignInFrag, isTextFrag, h1', h2, h3, h4]
          simp [classifyStep, h1', h1, h2, h3, h4, hc, hs]
        · rw [Bool.not_eq_true] at h4
          have hs : isSignInFrag a = false := by simp [isSignInFrag, h4]
          simp [classifyStep, h1', h1, h2, h3, h4, hc, hs]
      · rw [Bool.not_eq_true] at h3
        have hs : isSignInFrag a = false := by simp [isSignInFrag, h3]
        simp [classifyStep, h1', h1, h2, h3, hc, hs]

theorem classify_fold_text (l : List Activity) (acc : ClassifyAcc) :
    (l.foldl classifyStep acc).responseText =
      acc.responseText ++ joinTrail (textsOf l) := by
  induction l generalizing acc with
  | nil => simp [textsOf, joinTrail, String.append_empty]
  | cons a t ih =>
    rw [List.foldl_cons, ih, classifyStep_eq]
    by_cases h : isTextFrag a = true
    · simp only [h, if_pos]
      rw [show textsOf (a :: t) = a.text.getD "" :: textsOf t from by
            simp [textsOf, h]]
      rw [joinTrail, ← String.append_assoc, ← String.append_assoc]
    · rw [Bool.not_eq_true] at h
      simp only [h, Bool.false_eq_true, if_false]
      rw [show textsOf (a :: t) = textsOf t from by simp [textsOf, h]]

theorem classify_fold_consent (l : List Activity) (acc : ClassifyAcc) :
    (l.foldl classifyStep acc).consentCard =
      ((l.filter isConsentFrag).getLast?).or acc.consentCard := by
  induction l generalizing acc with
  | nil => rfl
  | cons a t ih =>
    rw [List.foldl_cons, ih, classifyStep_eq]
    by_cases h : isConsentFrag a = true
    · simp only [h, if_pos]
      rw [List.filter_cons_of_pos h]
      rcases he : (t.filter isConsentFrag).getLast? with _ | z
      · have : t.filter isConsentFrag = [] := by
          cases hf : t.filter isConsentFrag with
          | nil => rfl
          | cons x xs => rw [hf] at he; simp [List.getLast?] at he
        simp [this, he, List.getLast?, Option.or]
      · have hne : t.filter isConsentFrag ≠ [] := by
          intro hnil
          rw [hnil] at he
          simp at he
        rw [getLast?_cons_of_ne _ _ hne, he]
        rfl
    · rw [Bool.not_eq_true] at h
      simp only [h, Bool.false_eq_true, if_false]
      rw [List.filter_cons_of_neg (by simp [h])]

theorem classify_fold_signin (l : List Activity) (acc : ClassifyAcc) :
    (l.foldl classifyStep acc).userSignInCard =
      ((l.filter isSignInFrag).getLast?).or acc.userSignInCard := by
  induction l generalizing acc with
  | nil => rfl
  | cons a t ih =>
    rw [List.foldl_cons, ih, classifyStep_eq]
    by_cases h : isSignInFrag a = true
    · simp only [h, if_pos]
      rw [List.filter_cons_of_pos h]
      rcases he : (t.filter isSignInFrag).getLast? with _ | z
      · have : t.filter isSignInFrag = [] := by
          cases hf : t.filter isSignInFrag with
          | nil => rfl
          | cons x xs => rw [hf] at he; simp [List.getLast?] at he
        simp [this, he, List.getLast?, Option.or]
      · have hne : t.filter isSignInFrag ≠ [] := by
          intro hnil
          rw [hnil] at he
          simp at he
        rw [getLast?_cons_of_ne _ _ hne, he]
        rfl
    · rw [Bool.not_eq_true] at h
      simp only [h, Bool.false_eq_true, if_false]
      rw [List.filter_cons_of_neg (by simp [h])]

/-! ## Consent sub-protocol lemmas -/

theorem consent_none_eq (ask : String → Option String → Except String (List Activity))
    (conns : List (String × Connection)) (a : Activity) (fuel : Nat) :
    handleConsentCardResponseFuel ask conns (fuel + 1) a none = .done 0 := rfl

theorem consent_fold_const (ask : String → Option String → Except String (List Activity))
    (conns : List (String × Connection)) (f : Nat) (rs : List Activity) (k : Nat) :
    rs.foldl
      (fun acc a =>
        match acc with
        | .done n =>
          if a.name == some consentCardName then
            match handleConsentCardResponseFuel ask conns (f + 1) a none with
            | .done m => .done (n + m)
            | other => other
          else .done n
        | other => other)
      (ConsentOutcome.done k) = .done k := by
  induction rs generalizing k with
  | nil => rfl
  | cons a t ih =>
    rw [List.foldl_cons]
    by_cases h : (a.name == some consentCardName) = true
    · simp only [h, if_pos, consent_none_eq]
      exact ih k
    · rw [Bool.not_eq_true] at h
      simp only [h, Bool.false_eq_true, if_false]
      exact ih k

/-- Unfolding `handleConsentCardResponseFuel` at fuel ≥ 2 and a present
`userId`: one resend happens, and the nested arity-1 recursive calls all
return immediately, so the result is fuel-independent. -/
theorem consent_some_eq (ask : String → Option String → Except String (List Activity))
    (conns : List (String × Connection)) (f : Nat) (a : Activity) (uid : String) :
    handleConsentCardResponseFuel ask conns (f + 2) a (some uid) =
      match mapGet conns uid with
      | none => .done 0
      | some connection =>
        match ask consentPayloadJson connection.conversationId with
        | .error e => .failed e
        | .ok _ => .done 1 := by
  show (match mapGet conns uid with
    | none => ConsentOutcome.done 0
    | some connection =>
      match ask consentPayloadJson connection.conversationId with
      | .error e => .failed e
      | .ok responses =>
        responses.foldl
          (fun (acc : ConsentOutcome) (a : Activity) =>
            match acc with
            | .done n =>
              if a.name == some consentCardName then
                match handleConsentCardResponseFuel ask conns (f + 1) a none with
                | .done m => .done (n + m)
                | other => other
              else .done n
            | other => other)
          (.done 1)) = _
  cases hm : mapGet conns uid with
  | none => rfl
  | some connection =>
    show (match ask consentPayloadJson connection.conversationId with
      | .error e => ConsentOutcome.failed e
      | .ok responses =>
        responses.foldl
          (fun (acc : ConsentOutcome) (a : Activity) =>
            match acc with
            | .done n =>
              if a.name == some consentCardName then
                match handleConsentCardResponseFuel ask conns (f + 1) a none with
                | .done m => .done (n + m)
                | other => other
              else .done n
            | other => other)
          (.done 1)) =
      (match ask consentPayloadJson connection.conversationId with
      | .error e => ConsentOutcome.failed e
      | .ok _ => ConsentOutcome.done 1)
    cases ask consentPayloadJson connection.conversationId with
    | error e => rfl
    | ok responses => exact consent_fold_const ask conns f responses 1

/-! ## Claims C5 and C10 — the consent sub-protocol -/

/-- An upstream that answers every resend with a consent-request fragment. -/
def alwaysConsentAsk : String → Option String → Except String (List Activity) :=
  fun _ _ =>
    .ok [{ type := "event", text := none, name := some consentCardName,
           attachments := none }]

/-- A consent-request fragment. -/
def consentFragC5 : Activity :=
  { type := "event", text := none, name := some consentCardName,
    attachments := none }

/-- A registry holding one live connection for `u1`. -/
def connsC5 : List (String × Connection) :=
  [("u1", { conversationId := some "conv", lastActivity := 0, userId := "u1" })]

/-- C5, counterexample.  The claim says that when the upstream keeps
returning consent-request fragments the sub-protocol "terminates with a
ConsentLoopExceeded error once the configured maximum recursion depth is
exceeded".  The source has no depth configuration and no such error: on an
upstream that always answers with consent fragments, the call returns
normally after exactly one resend (shown here at fuel 10; the fuel-generality
is proved in the C5 theorem), because the recursive invocation omits the
user-id argument and finds no connection. -/
theorem c5_counterexample :
    handleConsentCardResponseFuel alwaysConsentAsk connsC5 10 consentFragC5
      (some "u1") = .done 1 := by
  rfl

/-- C5 (amended): for every upstream reply — in particular one consisting
entirely of consent-request fragments — and every recursion budget of at
least 2, the consent sub-protocol returns without exhausting the budget
(no unbounded recursion) and performs at most one consent-approval resend;
it never fails with a `ConsentLoopExceeded`-style error of its own (its only
failure mode is a rejected upstream resend). -/
theorem c5_consent_protocol_terminates
    (ask : String → Option String → Except String (List Activity))
    (conns : List (String × Connection)) (a : Activity)
    (uidOpt : Option String) (fuel : Nat) (hf : 2 ≤ fuel) :
    handleConsentCardResponseFuel ask conns fuel a uidOpt ≠ .outOfFuel ∧
    (∀ n, handleConsentCardResponseFuel ask conns fuel a uidOpt = .done n →
      n ≤ 1) := by
  obtain ⟨f, rfl⟩ : ∃ f, fuel = f + 2 := ⟨fuel - 2, by omega⟩
  cases uidOpt with
  | none =>
    rw [show f + 2 = (f + 1) + 1 from rfl, consent_none_eq]
    exact ⟨by simp, fun n hn => by cases hn; omega⟩
  | some uid =>
    rw [consent_some_eq]
    constructor
    · split
      · simp
      · split <;> simp
    · intro n hn
      split at hn
      · cases hn; omega
      · split at hn
        · cases hn
        · cases hn; omega

/-- C5, witness. -/
theorem c5_witness :
    handleConsentCardResponseFuel alwaysConsentAsk connsC5 5 consentFragC5
        (some "u1") ≠ .outOfFuel ∧
      (∀ n, handleConsentCardResponseFuel alwaysConsentAsk connsC5 5 consentFragC5
          (some "u1") = .done n → n ≤ 1) :=
  c5_consent_protocol_terminates alwaysConsentAsk connsC5 consentFragC5
    (some "u1") 5 (by decide)

/-- C10: the recursive invocation of the consent handler is made without the
user-id argument, so it looks up the connection map under an undefined key,
finds nothing, and returns normally having sent nothing (first conjunct);
consequently one turn's consent sub-protocol performs at most one
consent-approval resend upstream (second conjunct). -/
theorem c10_nested_consent_noop
    (ask : String → Option String → Except String (List Activity))
    (conns : List (String × Connection)) (a : Activity) (fuel : Nat)
    (hf : 1 ≤ fuel) :
    handleConsentCardResponseFuel ask conns fuel a none = .done 0 ∧
    (∀ (uidOpt : Option String) (n : Nat), 2 ≤ fuel →
      handleConsentCardResponseFuel ask conns fuel a uidOpt = .done n →
      n ≤ 1) := by
  obtain ⟨f, rfl⟩ : ∃ f, fuel = f + 1 := ⟨fuel - 1, by omega⟩
  refine ⟨consent_none_eq ask conns a f, ?_⟩
  intro uidOpt n h2 hn
  obtain ⟨g, hg⟩ : ∃ g, f + 1 = g + 2 := ⟨f - 1, by omega⟩
  rw [hg] at hn
  cases uidOpt with
  | none =>
    rw [show g + 2 = (g + 1) + 1 from rfl, consent_none_eq] at hn
    cases hn
    omega
  | some uid =>
    rw [consent_some_eq] at hn
    split at hn
    · cases hn; omega
    · split at hn
      · cases hn
      · cases hn; omega

/-- C10, witness. -/
theorem c10_witness :
    handleConsentCardResponseFuel alwaysConsentAsk connsC5 3 consentFragC5
        none = .done 0 ∧
      (∀ (uidOpt : Option String) (n : Nat), 2 ≤ 3 →
        handleConsentCardResponseFuel alwaysConsentAsk connsC5 3 consentFragC5
            uidOpt = .done n → n ≤ 1) :=
  c10_nested_consent_noop alwaysConsentAsk connsC5 consentFragC5 3 (by decide)

/-! ## Claim C1 — `TokenStore.get` and credential expiration -/

/-- A decoder under which `"tok0"` is a decodable JWT whose payload carries
the numeric claim `exp: 0` (the Unix epoch — a time strictly in the past at
any positive call time). -/
def decZero : JwtDecode := fun s => if s = "tok0" then some (some 0) else none

/-- C1, counterexample.  The claim quantifies over every credential "whose
decodable three-segment JWT payload carries a numeric exp claim strictly in
the past at the time of the call".  A payload with `exp: 0` is such a
credential at call time 1000, yet `getUserToken` returns the stored token
instead of absent: both `storeUserToken` and the legacy read path guard the
expiry check with the JS truthiness test `if (payload.exp)`, which is false
for the number 0, so the expiration is never checked. -/
theorem c1_counterexample :
    decZero "tok0" = some (some 0) ∧ (0 : Int) * 1000 < 1000 ∧
    (getUserToken decZero 1000 (storeUserToken decZero 0 [] "u1" "tok0")
      "u1").1 = some "tok0" ∧
    (getUserToken decZero 1000 [("u1", .legacy "tok0")] "u1").1 = some "tok0" := by
  refine ⟨rfl, by norm_num, ?_, ?_⟩ <;> rfl

/-- C1 (amended): for every credential whose decodable JWT payload carries a
numeric, truthy (non-zero) `exp` claim, in both the legacy bare-string shape
and the structured shape produced by `storeUserToken`: a `getUserToken` call
at a time strictly after `exp` (in ms) returns absent and deletes the
record, so an immediately subsequent call also returns absent; a call
strictly before the expiration time returns the stored token. -/
theorem c1_get_expired_token_deleted (dec : JwtDecode) (uid tok : String)
    (e tstore tget tvalid : Int) (st : List (String × TokenData))
    (hdec : dec tok = some (some e)) (hne : e ≠ 0) :
    (tget > e * 1000 →
      getUserToken dec tget (storeUserToken dec tstore st uid tok) uid =
        (none, mapDelete (storeUserToken dec tstore st uid tok) uid) ∧
      (getUserToken dec tget
        (mapDelete (storeUserToken dec tstore st uid tok) uid) uid).1 = none) ∧
    (tvalid < e * 1000 →
      (getUserToken dec tvalid (storeUserToken dec tstore st uid tok) uid).1 =
        some tok) ∧
    (mapGet st uid = some (.legacy tok) →
      (tget > e * 1000 →
        getUserToken dec tget st uid = (none, mapDelete st uid) ∧
        (getUserToken dec tget (mapDelete st uid) uid).1 = none) ∧
      (tvalid < e * 1000 → (getUserToken dec tvalid st uid).1 = some tok)) := by
  have hmul : e * 1000 ≠ 0 := by
    intro h
    rcases mul_eq_zero.mp h with h1 | h1
    · exact hne h1
    · norm_num at h1
  have hstore : mapGet (storeUserToken dec tstore st uid tok) uid =
      some (.structured { token := tok, storedAt := tstore, lastUsed := tstore,
                          expiresAt := some (e * 1000) }) := by
    have hif : (if e ≠ 0 then some (e * 1000) else (none : Option Int)) =
        some (e * 1000) := if_pos hne
    simp only [storeUserToken, hdec, hif]
    exact mapGet_mapSet_self ..
  refine ⟨?_, ?_, ?_⟩
  · intro hexp
    constructor
    · simp only [getUserToken, hstore]
      rw [if_pos ⟨hmul, hexp⟩]
    · simp only [getUserToken, mapGet_mapDelete_self]
  · intro hval
    have hc : ¬ (e * 1000 ≠ 0 ∧ tvalid > e * 1000) := by
      rintro ⟨-, h⟩
      omega
    simp only [getUserToken, hstore]
    rw [if_neg hc]
  · intro hleg
    constructor
    · intro hexp
      constructor
      · simp only [getUserToken, hleg, hdec]
        rw [if_pos hne, if_pos hexp]
      · simp only [getUserToken, mapGet_mapDelete_self]
    · intro hval
      have hc : ¬ tvalid > e * 1000 := by omega
      simp only [getUserToken, hleg, hdec]
      rw [if_pos hne, if_neg hc]

/-- A decoder under which `"tokE"` decodes with the numeric claim `exp: 1`
(one second past the epoch, i.e. 1000 ms). -/
def decOne : JwtDecode := fun s => if s = "tokE" then some (some 1) else none

/-- C1, witness: the amended theorem applied at `exp = 1`, store time 0,
expired read at 2000 ms, valid read at 500 ms, in both shapes. -/
theorem c1_witness :
    (2000 > (1 : Int) * 1000 →
      getUserToken decOne 2000
          (storeUserToken decOne 0 [("u1", TokenData.legacy "tokE")] "u1" "tokE") "u1" =
        (none, mapDelete
          (storeUserToken decOne 0 [("u1", TokenData.legacy "tokE")] "u1" "tokE") "u1") ∧
      (getUserToken decOne 2000
        (mapDelete
          (storeUserToken decOne 0 [("u1", TokenData.legacy "tokE")] "u1" "tokE") "u1")
        "u1").1 = none) ∧
    (500 < (1 : Int) * 1000 →
      (getUserToken decOne 500
        (storeUserToken decOne 0 [("u1", TokenData.legacy "tokE")] "u1" "tokE")
        "u1").1 = some "tokE") ∧
    (mapGet [("u1", TokenData.legacy "tokE")] "u1" = some (.legacy "tokE") →
      (2000 > (1 : Int) * 1000 →
        getUserToken decOne 2000 [("u1", TokenData.legacy "tokE")] "u1" =
          (none, mapDelete [("u1", TokenData.legacy "tokE")] "u1") ∧
        (getUserToken decOne 2000
          (mapDelete [("u1", TokenData.legacy "tokE")] "u1") "u1").1 = none) ∧
      (500 < (1 : Int) * 1000 →
        (getUserToken decOne 500 [("u1", TokenData.legacy "tokE")] "u1").1 =
          some "tokE")) :=
  c1_get_expired_token_deleted decOne "u1" "tokE" 1 0 2000 500
    [("u1", TokenData.legacy "tokE")] rfl (by norm_num)

/-! ## Claim C2 — the service-token cache -/

/-- C2: if the cache holds a (truthy) token and the call time is strictly
before `expiresAt` minus the 5-minute buffer, `getServiceToken` returns the
cached token, leaves the cache unchanged and does not invoke the identity
provider; hence two such calls return the identical token with no provider
invocation.  A call once the buffer has elapsed invokes the provider exactly
once and caches the returned token with its returned expiration, defaulting
to `now + 3600000` when the provider omits one. -/
theorem c2_service_token_cache (c : ServiceTokenCache) (t : String)
    (now1 now2 now3 : Int) (p : Except String ProviderResponse)
    (r : ProviderResponse)
    (htok : c.token = some t) (hne : t ≠ "")
    (h1 : now1 < c.expiresAt - 300000) (h2 : now2 < c.expiresAt - 300000)
    (h3 : ¬ now3 < c.expiresAt - 300000) :
    getServiceToken now1 p c = (.ok t, c, false) ∧
    getServiceToken now2 p c = (.ok t, c, false) ∧
    getServiceToken now3 (.ok r) c =
      (.ok r.accessToken,
       { token := some r.accessToken,
         expiresAt :=
           match r.expiresOn with
           | some e => e
           | none => now3 + 3600000 },
       true) := by
  refine ⟨?_, ?_, ?_⟩
  · simp only [getServiceToken, htok]
    rw [if_pos ⟨hne, h1⟩]
  · simp only [getServiceToken, htok]
    rw [if_pos ⟨hne, h2⟩]
  · simp only [getServiceToken, htok]
    rw [if_neg (by rintro ⟨-, h⟩; exact h3 h)]
    rfl

/-- C2, witness: cached token `"svc"` valid until 1000000 served at 100 and
200; refresh at 700000 (exactly when the buffer elapses) with a provider
response carrying an expiration. -/
theorem c2_witness :
    getServiceToken 100 (.error "idp down")
        { token := some "svc", expiresAt := 1000000 } =
      (.ok "svc", { token := some "svc", expiresAt := 1000000 }, false) ∧
    getServiceToken 200 (.error "idp down")
        { token := some "svc", expiresAt := 1000000 } =
      (.ok "svc", { token := some "svc", expiresAt := 1000000 }, false) ∧
    getServiceToken 700000
        (.ok { accessToken := "fresh", expiresOn := some 2000000 })
        { token := some "svc", expiresAt := 1000000 } =
      (.ok "fresh", { token := some "fresh", expiresAt := 2000000 }, true) :=
  c2_service_token_cache { token := some "svc", expiresAt := 1000000 } "svc"
    100 200 700000 (.error "idp down")
    { accessToken := "fresh", expiresOn := some 2000000 }
    rfl (by decide) (by norm_num) (by norm_num) (by norm_num)

/-! ## Claim C7 — the connection-eviction phase of `cleanup` -/

/-- C7: `cleanup` removes exactly the sessions with
`now - lastActivity > maxAge` (the configured idle timeout) and leaves every
other session's entry — the whole `Connection` value — unchanged, assuming
the JS-`Map` invariant of unique keys. -/
theorem c7_cleanup_sweeps_exactly (now maxAge : Int) (st : MWState)
    (uid : String) (h : keysNodup st.activeConnections) :
    mapGet (cleanup now maxAge st).activeConnections uid =
      match mapGet st.activeConnections uid with
      | some c => if now - c.lastActivity > maxAge then none else some c
      | none => none := by
  show mapGet (cleanupConnections now maxAge st.activeConnections) uid = _
  unfold cleanupConnections
  rw [mapGet_filter _ _ _ h]
  cases mapGet st.activeConnections uid with
  | none => rfl
  | some c =>
    by_cases hc : now - c.lastActivity > maxAge
    · simp [hc]
    · simp [hc]

/-- A registry with one stale and one fresh session. -/
def stC7 : MWState :=
  { activeConnections :=
      [("stale", { conversationId := some "c1", lastActivity := 0,
                   userId := "stale" }),
       ("fresh", { conversationId := some "c2", lastActivity := 950,
                   userId := "fresh" })],
    userTokens := [],
    serviceTokenCache := { token := none, expiresAt := 0 } }

/-- C7, witness: sweeping `stC7` at time 1000 with idle timeout 100 removes
the stale entry and returns the fresh one unchanged. -/
theorem c7_witness :
    (mapGet (cleanup 1000 100 stC7).activeConnections "stale" =
      match mapGet stC7.activeConnections "stale" with
      | some c => if 1000 - c.lastActivity > 100 then none else some c
      | none => none) ∧
    (mapGet (cleanup 1000 100 stC7).activeConnections "fresh" =
      match mapGet stC7.activeConnections "fresh" with
      | some c => if 1000 - c.lastActivity > 100 then none else some c
      | none => none) :=
  ⟨c7_cleanup_sweeps_exactly 1000 100 stC7 "stale"
      (by show (List.map Prod.fst stC7.activeConnections).Nodup; decide),
   c7_cleanup_sweeps_exactly 1000 100 stC7 "fresh"
      (by show (List.map Prod.fst stC7.activeConnections).Nodup; decide)⟩

/-! ## Connection-creation shape lemmas -/

theorem createWithStart_err (env : Env) (st : MWState) (uid : String)
    (cache : ServiceTokenCache) (e : String) (h : env.startConv = .error e) :
    createWithStart env st uid cache =
      ({ st with serviceTokenCache := cache }, [RegistryEv.conversationStarted],
       .error e) := by
  unfold createWithStart
  rw [h]

theorem createWithStart_ok (env : Env) (st : MWState) (uid : String)
    (cache : ServiceTokenCache) (info : ConvInfo) (h : env.startConv = .ok info) :
    createWithStart env st uid cache =
      ({ st with
           serviceTokenCache := cache,
           activeConnections := mapSet st.activeConnections uid
             { conversationId := info.conversationId, lastActivity := env.now,
               userId := uid } },
       [RegistryEv.conversationStarted, RegistryEv.regSet uid],
       .ok { conversationId := info.conversationId, lastActivity := env.now,
             userId := uid }) := by
  unfold createWithStart
  rw [h]

theorem createWithToken_err (env : Env) (e : String) (cache : ServiceTokenCache)
    (b : Bool) (st : MWState) (uid : String) :
    createWithToken env (.error e, cache, b) st uid =
      ({ st with serviceTokenCache := cache }, [], .error e) := rfl

theorem createWithToken_okTok (env : Env) (t : String) (cache : ServiceTokenCache)
    (b : Bool) (st : MWState) (uid : String) :
    createWithToken env (.ok t, cache, b) st uid =
      createWithStart env st uid cache := rfl

/-- `getServiceToken` with a successful provider always resolves a token. -/
theorem getServiceToken_ok_shape (now : Int) (r : ProviderResponse)
    (c : ServiceTokenCache) :
    ∃ t cache b, getServiceToken now (.ok r) c = (.ok t, cache, b) := by
  obtain ⟨ctok, cexp⟩ := c
  cases ctok with
  | none => exact ⟨r.accessToken, _, true, rfl⟩
  | some t =>
    by_cases h : t ≠ "" ∧ now < cexp - 300000
    · refine ⟨t, ⟨some t, cexp⟩, false, ?_⟩
      show (if t ≠ "" ∧ now < cexp - 300000 then
          ((Except.ok t : Except String String),
           ({ token := some t, expiresAt := cexp } : ServiceTokenCache), false)
        else serviceRefresh now (.ok r)) = _
      rw [if_pos h]
    · refine ⟨r.accessToken,
        { token := some r.accessToken,
          expiresAt := match r.expiresOn with | some e => e | none => now + 3600000 },
        true, ?_⟩
      show (if t ≠ "" ∧ now < cexp - 300000 then
          ((Except.ok t : Except String String),
           ({ token := some t, expiresAt := cexp } : ServiceTokenCache), false)
        else serviceRefresh now (.ok r)) = _
      rw [if_neg h]
      rfl

/-- Every run of `createUserConnection` either leaves the connection map
unchanged or overwrites the one key with a `Map.set`, and never performs a
`Map.delete`; the token map is never touched. -/
theorem createUserConnection_shape (env : Env) (st : MWState) (uid : String)
    (tok : Option String) :
    ((createUserConnection env st uid tok).1.activeConnections =
        st.activeConnections ∨
      ∃ conn, (createUserConnection env st uid tok).1.activeConnections =
        mapSet st.activeConnections uid conn) ∧
    (∀ u, RegistryEv.regDelete u ∉ (createUserConnection env st uid tok).2.1) ∧
    (createUserConnection env st uid tok).1.userTokens = st.userTokens := by
  unfold createUserConnection
  rcases hts : (if strTruthy tok then
      (Except.ok (tok.getD ""), st.serviceTokenCache, false)
    else getServiceToken env.now env.provider st.serviceTokenCache) with ⟨res, cache, b⟩
  cases res with
  | error e =>
    rw [createWithToken_err]
    exact ⟨Or.inl rfl, by simp, rfl⟩
  | ok t =>
    rw [createWithToken_okTok]
    cases hs : env.startConv with
    | error e =>
      rw [createWithStart_err _ _ _ _ _ hs]
      exact ⟨Or.inl rfl, by simp, rfl⟩
    | ok info =>
      rw [createWithStart_ok _ _ _ _ _ hs]
      exact ⟨Or.inr ⟨_, rfl⟩, by simp, rfl⟩

/-- `createUserConnection` with no user token and successful collaborators:
the created session is stored under `uid` and returned. -/
theorem createUserConnection_service_ok (env : Env) (st : MWState) (uid : String)
    (r : ProviderResponse) (info : ConvInfo)
    (hp : env.provider = .ok r) (hs : env.startConv = .ok info) :
    ∃ cache, createUserConnection env st uid none =
      ({ st with
           serviceTokenCache := cache,
           activeConnections := mapSet st.activeConnections uid
             { conversationId := info.conversationId, lastActivity := env.now,
               userId := uid } },
       [RegistryEv.conversationStarted, RegistryEv.regSet uid],
       .ok { conversationId := info.conversationId, lastActivity := env.now,
             userId := uid }) := by
  unfold createUserConnection
  have hne : ¬ (strTruthy (none : Option String) = true) := by simp [strTruthy]
  rw [if_neg hne, hp]
  obtain ⟨t, cache, b, hserv⟩ := getServiceToken_ok_shape env.now r st.serviceTokenCache
  rw [hserv, createWithToken_okTok, createWithStart_ok _ _ _ _ _ hs]
  exact ⟨cache, rfl⟩

/-! ## Claim C6 — one session per user, invalidation before overwrite -/

/-- The session already stored for `u1`. -/
def connC6 : Connection :=
  { conversationId := some "old", lastActivity := 0, userId := "u1" }

/-- A state in which `u1` already has a live session. -/
def stC6 : MWState :=
  { activeConnections := [("u1", connC6)], userTokens := [],
    serviceTokenCache := { token := none, expiresAt := 0 } }

/-- Collaborators for which connection creation succeeds. -/
def envC6 : Env :=
  { now := 50, provider := .ok { accessToken := "svc", expiresOn := some 10000000 },
    startConv := .ok { conversationId := some "newconv" },
    ask := fun _ => .ok [], postResult := none }

/-- C6, counterexample.  `u1` already has a session, yet `createUserConnection`
creates and stores a fresh one by a blind `Map.set`: the sequence of registry
operations it performs contains no invalidation (`Map.delete`) of the
existing session before the store, contradicting the claim that "creating a
new session for a userId that already has one first invalidates the existing
session". -/
theorem c6_counterexample :
    (mapGet stC6.activeConnections "u1").isSome = true ∧
    (createUserConnection envC6 stC6 "u1" none).2.2 =
      .ok { conversationId := some "newconv", lastActivity := 50,
            userId := "u1" } ∧
    RegistryEv.regDelete "u1" ∉ (createUserConnection envC6 stC6 "u1" none).2.1 := by
  refine ⟨rfl, rfl, by decide⟩

/-- C6 (amended): the registry, being a map, holds at most one stored session
per userId (unique keys are preserved by session creation), but
`createUserConnection` stores a new session for a userId that already has one
by blind overwrite, performing no invalidation first; only `newConversation`
deletes the existing session before creating the new one. -/
theorem c6_registry_overwrite (env : Env) (st : MWState) (uid : String)
    (tok : Option String) (h : keysNodup st.activeConnections) :
    keysNodup (createUserConnection env st uid tok).1.activeConnections ∧
    (∀ u, RegistryEv.regDelete u ∉ (createUserConnection env st uid tok).2.1) ∧
    (newConversation env st uid).2.1.head? = some (RegistryEv.regDelete uid) := by
  refine ⟨?_, (createUserConnection_shape env st uid tok).2.1, ?_⟩
  · rcases (createUserConnection_shape env st uid tok).1 with h1 | ⟨conn, h1⟩
    · rw [h1]
      exact h
    · rw [h1]
      exact keysNodup_mapSet _ _ _ h
  · unfold newConversation
    rfl

/-- C6, witness. -/
theorem c6_witness :
    keysNodup (createUserConnection envC6 stC6 "u1" none).1.activeConnections ∧
    (∀ u, RegistryEv.regDelete u ∉ (createUserConnection envC6 stC6 "u1" none).2.1) ∧
    (newConversation envC6 stC6 "u1").2.1.head? =
      some (RegistryEv.regDelete "u1") :=
  c6_registry_overwrite envC6 stC6 "u1" none
    (by show (List.map Prod.fst stC6.activeConnections).Nodup; decide)

/-! ## Claim C9 — sign-in card extraction never raises -/

/-- C9: sign-in card extraction is a total function (it never raises), and:
if the first attachment is missing or not of the OAuth content type, it
returns the fixed could-not-find-sign-in-link message; if the (first)
sign-in-typed button is missing or carries no truthy value, it returns the
fixed link-missing-contact-support message; otherwise it returns the card's
prompt text, a blank line, and `Click here to sign in: ` followed by the
sign-in button's value rendered as the Slack link. -/
theorem c9_sign_in_extraction (card : Activity) :
    ((card.attachments.getD []).head? = none →
      handleUserSignInCard card = signInNoLinkMsg) ∧
    (∀ att, (card.attachments.getD []).head? = some att →
      att.contentType ≠ oauthCardContentType →
      handleUserSignInCard card = signInNoLinkMsg) ∧
    (∀ att, (card.attachments.getD []).head? = some att →
      att.contentType = oauthCardContentType →
      (cardButtons att).find? (fun b => b.type == "signin") = none →
      handleUserSignInCard card = signInLinkMissingMsg) ∧
    (∀ att b, (card.attachments.getD []).head? = some att →
      att.contentType = oauthCardContentType →
      (cardButtons att).find? (fun b => b.type == "signin") = some b →
      strTruthy b.value = false →
      handleUserSignInCard card = signInLinkMissingMsg) ∧
    (∀ att b v, (card.attachments.getD []).head? = some att →
      att.contentType = oauthCardContentType →
      (cardButtons att).find? (fun b => b.type == "signin") = some b →
      b.value = some v → v ≠ "" →
      handleUserSignInCard card =
        cardPrompt att ++ "\n\nClick here to sign in: <" ++ v ++ "|Sign In>") := by
  refine ⟨?_, ?_, ?_, ?_, ?_⟩
  · intro h
    simp only [handleUserSignInCard, h]
  · intro att h hne
    simp only [handleUserSignInCard, h]
    rw [if_pos hne]
  · intro att h heq hfind
    simp only [handleUserSignInCard, h]
    rw [if_neg (fun hn => hn heq), hfind]
  · intro att b h heq hfind hval
    simp only [handleUserSignInCard, h]
    rw [if_neg (fun hn => hn heq), hfind]
    simp only [hval, Bool.false_eq_true, if_false]
  · intro att b v h heq hfind hbv hv
    simp only [handleUserSignInCard, h]
    rw [if_neg (fun hn => hn heq), hfind]
    have ht : strTruthy b.value = true := by simp [strTruthy, hbv, hv]
    show (if strTruthy b.value = true then
        cardPrompt att ++ "\n\nClick here to sign in: <" ++ b.value.getD "" ++
          "|Sign In>"
      else signInLinkMissingMsg) = _
    rw [if_pos ht, hbv]
    rfl

/-- A well-formed sign-in card: one OAuth attachment, a sign-in button with a
URL and a prompt. -/
def cardC9 : Activity :=
  { type := "message", text := none, name := none,
    attachments := some
      [{ contentType := "application/vnd.microsoft.card.oauth",
         content := some
           { buttons := some [{ type := "signin",
                                value := some "https://login.example/auth" }],
             text := some "Please sign in to Contoso." } }] }

/-- C9, witness: the composed-message branch of the theorem applied to
`cardC9`. -/
theorem c9_witness :
    handleUserSignInCard cardC9 =
      cardPrompt { contentType := "application/vnd.microsoft.card.oauth",
                   content := some
                     { buttons := some [{ type := "signin",
                                          value := some "https://login.example/auth" }],
                       text := some "Please sign in to Contoso." } } ++
        "\n\nClick here to sign in: <" ++ "https://login.example/auth" ++
        "|Sign In>" :=
  (c9_sign_in_extraction cardC9).2.2.2.2
    { contentType := "application/vnd.microsoft.card.oauth",
      content := some
        { buttons := some [{ type := "signin",
                             value := some "https://login.example/auth" }],
          text := some "Please sign in to Contoso." } }
    { type := "signin", value := some "https://login.example/auth" }
    "https://login.example/auth" rfl rfl rfl rfl (by decide)

/-! ## `sendMessage` unfolding lemmas -/

theorem getLast?_filter_any {α : Type} (p : α → Bool) (l : List α) :
    ((l.filter p).getLast?).isSome = l.any p := by
  induction l with
  | nil => rfl
  | cons a t ih =>
    by_cases h : p a
    · rw [List.filter_cons_of_pos h]
      have hs : ((a :: t.filter p).getLast?).isSome = true := by
        simp [List.getLast?_isSome]
      rw [hs]
      simp [List.any_cons, h]
    · rw [List.filter_cons_of_neg (by simp [h]), ih]
      simp [List.any_cons, h]

theorem classify_text_eq (replies : List Activity) :
    (classify replies).responseText = joinTrail (textsOf replies) :=
  (classify_fold_text replies ⟨"", none, none⟩).trans (String.empty_append _)

theorem classify_consent_eq (replies : List Activity) :
    (classify replies).consentCard = (replies.filter isConsentFrag).getLast? :=
  (classify_fold_consent replies ⟨"", none, none⟩).trans (by simp)

theorem classify_signin_eq (replies : List Activity) :
    (classify replies).userSignInCard = (replies.filter isSignInFrag).getLast? :=
  (classify_fold_signin replies ⟨"", none, none⟩).trans (by simp)

theorem sendMessage_found (env : Env) (st : MWState) (uid : String)
    (tok : Option String) (conn : Connection)
    (h : mapGet st.activeConnections uid = some conn) :
    sendMessage env st uid tok =
      sendMessageWithConn env st env.postResult uid conn [] := by
  unfold sendMessage
  rw [h]

theorem sendMessage_notfound (env : Env) (st : MWState) (uid : String)
    (tok : Option String) (h : mapGet st.activeConnections uid = none) :
    sendMessage env st uid tok =
      (match createUserConnection env st uid tok with
       | (st', evs, .error e) =>
         { st := st', events := evs,
           slackOps := updateIfThinking env.postResult turnErrorMsg,
           result := .error e, consentResends := 0 }
       | (st', evs, .ok connection) =>
         sendMessageWithConn env st' env.postResult uid connection evs) := by
  unfold sendMessage
  rw [h]

theorem sendMessageWithConn_askErr (env : Env) (st : MWState)
    (thinking : Option PostInfo) (uid : String) (conn : Connection)
    (evs : List RegistryEv) (e : String) (h : env.ask 0 = .error e) :
    sendMessageWithConn env st thinking uid conn evs =
      { st := st, events := evs,
        slackOps := updateIfThinking thinking turnErrorMsg,
        result := .error e, consentResends := 0 } := by
  unfold sendMessageWithConn
  rw [h]

theorem sendMessageWithConn_askOk (env : Env) (st : MWState)
    (thinking : Option PostInfo) (uid : String) (conn : Connection)
    (evs : List RegistryEv) (rs : List Activity) (h : env.ask 0 = .ok rs) :
    sendMessageWithConn env st thinking uid conn evs =
      (match consentStepRun env st uid (classify rs) with
       | .error e =>
         { st := st, events := evs,
           slackOps := updateIfThinking thinking turnErrorMsg,
           result := .error e, consentResends := 0 }
       | .ok sends =>
         { st := { st with activeConnections := mapSet st.activeConnections uid (touchConn conn env.now) },
           events := evs,
           slackOps := updateIfThinking thinking (resolveFinal rs),
           result := .ok "", consentResends := sends }) := by
  unfold sendMessageWithConn
  rw [h]

theorem sendMessageWithConn_events (env : Env) (st : MWState)
    (thinking : Option PostInfo) (uid : String) (conn : Connection)
    (evs : List RegistryEv) :
    (sendMessageWithConn env st thinking uid conn evs).events = evs := by
  unfold sendMessageWithConn
  split
  · rfl
  · split
    · rfl
    · rfl

/-! ## Claim C3 — reply-resolution priority -/

/-- A turn whose single fragment is a message with whitespace-only text. -/
def rsC3 : List Activity :=
  [{ type := "message", text := some " ", name := none, attachments := none }]

/-- C3, counterexample.  The claim says that whenever the space-separated
concatenation of the texts of message fragments with non-empty text is
non-empty, it is the reply.  For a turn whose one fragment's text is a single
space, that concatenation is `" "` — non-empty — yet the code trims it to
empty and falls through to the fixed no-response fallback. -/
theorem c3_counterexample :
    spaceJoin (textsOf rsC3) = " " ∧ (" " : String) ≠ "" ∧
    resolveFinal rsC3 = noResponseMsg ∧ noResponseMsg ≠ " " := by
  refine ⟨rfl, by decide, rfl, by decide⟩

/-- C3 (amended): for every turn's fragment sequence, the primary reply is:
the *trimmed* space-separated, order-preserving concatenation of the texts of
message fragments with non-empty (truthy) text, when that trimmed
concatenation is non-empty; otherwise, when a consent-request fragment was
captured, the fixed approval-sent acknowledgment (and the consent card is
auto-resolved — one approval resend, second conjunct); otherwise the fixed
no-response fallback.  Whenever a sign-in card was also captured (the last
one), its extracted sign-in text is appended after the primary reply in
every branch. -/
theorem c3_reply_priority :
    (∀ replies : List Activity,
      resolveFinal replies =
        (match (replies.filter isSignInFrag).getLast? with
         | some card =>
           (if jsTrim (spaceJoin (textsOf replies)) ≠ "" then
              jsTrim (spaceJoin (textsOf replies))
            else if replies.any isConsentFrag then consentAckMsg
            else noResponseMsg) ++ " " ++ handleUserSignInCard card
         | none =>
           if jsTrim (spaceJoin (textsOf replies)) ≠ "" then
             jsTrim (spaceJoin (textsOf replies))
           else if replies.any isConsentFrag then consentAckMsg
           else noResponseMsg)) ∧
    (∀ (env : Env) (st : MWState) (uid : String) (tok : Option String)
       (conn : Connection) (rs rs2 : List Activity),
      mapGet st.activeConnections uid = some conn →
      env.ask 0 = .ok rs →
      jsTrim (spaceJoin (textsOf rs)) = "" →
      rs.any isConsentFrag = true →
      env.ask 1 = .ok rs2 →
      (sendMessage env st uid tok).consentResends = 1 ∧
      (sendMessage env st uid tok).result = .ok "" ∧
      (sendMessage env st uid tok).slackOps =
        updateIfThinking env.postResult (resolveFinal rs)) := by
  constructor
  · intro replies
    simp only [resolveFinal, resolvePrimary]
    rw [classify_text_eq, classify_consent_eq, classify_signin_eq,
        jsTrim_joinTrail]
    have hcons : ((replies.filter isConsentFrag).getLast?).isSome =
        replies.any isConsentFrag := getLast?_filter_any _ _
    cases hsi : (replies.filter isSignInFrag).getLast? with
    | none => rw [hcons]
    | some card => rw [hcons]
  · intro env st uid tok conn rs rs2 hconn hask htrim hcons hask1
    have hcardEx : ∃ card, (rs.filter isConsentFrag).getLast? = some card := by
      have h := getLast?_filter_any isConsentFrag rs
      rw [hcons] at h
      exact Option.isSome_iff_exists.mp h
    obtain ⟨card, hcard⟩ := hcardEx
    have hcs : consentStepRun env st uid (classify rs) = .ok 1 := by
      unfold consentStepRun
      have ht' : jsTrim (classify rs).responseText = "" := by
        rw [classify_text_eq, jsTrim_joinTrail]
        exact htrim
      rw [if_pos ht', classify_consent_eq, hcard]
      have hh : handleConsentCardResponseFuel (fun _ _ => env.ask 1)
          st.activeConnections 2 card (some uid) = .done 1 := by
        rw [consent_some_eq (fun _ _ => env.ask 1) st.activeConnections 0 card uid,
            hconn]
        show (match env.ask 1 with
          | Except.error e => ConsentOutcome.failed e
          | Except.ok _ => ConsentOutcome.done 1) = ConsentOutcome.done 1
        rw [hask1]
      show (match handleConsentCardResponseFuel (fun _ _ => env.ask 1)
          st.activeConnections 2 card (some uid) with
        | .failed e => Except.error e
        | .done n => Except.ok n
        | .outOfFuel => Except.ok 0) = Except.ok 1
      rw [hh]
    rw [sendMessage_found env st uid tok conn hconn,
        sendMessageWithConn_askOk env st env.postResult uid conn [] rs hask,
        hcs]
    exact ⟨rfl, rfl, rfl⟩

/-- A consent-only turn: empty text, one consent fragment; the consent resend
is answered with an empty reply list. -/
def envC3 : Env :=
  { now := 7, provider := .error "unused", startConv := .error "unused",
    ask := fun k => if k = 0 then .ok [consentFragC5] else .ok [],
    postResult := some { ts := "1.2", channel := "C9" } }

/-- C3, witness: the priority theorem applied to the consent-only turn of
`envC3` against the registry `connsC5`. -/
theorem c3_witness :
    (sendMessage envC3
        { activeConnections := connsC5, userTokens := [],
          serviceTokenCache := { token := none, expiresAt := 0 } }
        "u1" none).consentResends = 1 ∧
    (sendMessage envC3
        { activeConnections := connsC5, userTokens := [],
          serviceTokenCache := { token := none, expiresAt := 0 } }
        "u1" none).result = .ok "" ∧
    (sendMessage envC3
        { activeConnections := connsC5, userTokens := [],
          serviceTokenCache := { token := none, expiresAt := 0 } }
        "u1" none).slackOps =
      updateIfThinking envC3.postResult (resolveFinal [consentFragC5]) :=
  c3_reply_priority.2 envC3
    { activeConnections := connsC5, userTokens := [],
      serviceTokenCache := { token := none, expiresAt := 0 } }
    "u1" none { conversationId := some "conv", lastActivity := 0, userId := "u1" }
    [consentFragC5] [] rfl rfl rfl (by decide) rfl

/-! ## Claim C4 — what `sendMessage` returns to its caller -/

/-- A turn answered with the single text fragment `"Hello"`. -/
def envC4 : Env :=
  { now := 100, provider := .error "unused", startConv := .error "unused",
    ask := fun _ => .ok [{ type := "message", text := some "Hello",
                           name := none, attachments := none }],
    postResult := some { ts := "171.001", channel := "C123" } }

/-- A state holding a live connection for `u1`. -/
def stC4 : MWState :=
  { activeConnections :=
      [("u1", { conversationId := some "conv1", lastActivity := 0,
                userId := "u1" })],
    userTokens := [], serviceTokenCache := { token := none, expiresAt := 0 } }

/-- C4, counterexample.  On a successful turn whose resolved reply is
`"Hello"`, `sendMessage` posts the reply by updating the thinking message but
returns `{ text: '' }` — the empty string, not the final resolved reply text
(the source comments: "Return empty text since we already posted the response
via message update"). -/
theorem c4_counterexample :
    (sendMessage envC4 stC4 "u1" none).result = .ok "" ∧
    (sendMessage envC4 stC4 "u1" none).slackOps =
      [SlackOp.update "C123" "171.001" "Hello"] ∧
    ("" : String) ≠ "Hello" := by
  refine ⟨rfl, rfl, by decide⟩

/-- C4 (amended): for every successful chat turn, `sendMessage` delivers the
final resolved user-facing reply by updating the chat-platform thinking
message (when one was posted) and returns an object whose `text` is the empty
string — not the reply text. -/
theorem c4_returns_empty_text (env : Env) (st : MWState) (uid : String)
    (tok : Option String) (rs : List Activity) (r : String)
    (hask : env.ask 0 = .ok rs)
    (hres : (sendMessage env st uid tok).result = .ok r) :
    r = "" ∧
    (sendMessage env st uid tok).slackOps =
      updateIfThinking env.postResult (resolveFinal rs) := by
  cases hconn : mapGet st.activeConnections uid with
  | some conn =>
    rw [sendMessage_found env st uid tok conn hconn,
        sendMessageWithConn_askOk env st env.postResult uid conn [] rs hask] at hres ⊢
    cases hcs : consentStepRun env st uid (classify rs) with
    | error e =>
      rw [hcs] at hres
      have h2 : (Except.error e : Except String String) = .ok r := hres
      cases h2
    | ok sends =>
      rw [hcs] at hres
      refine ⟨?_, rfl⟩
      have h2 : (Except.ok "" : Except String String) = .ok r := hres
      injection h2 with h3
      exact h3.symm
  | none =>
    rw [sendMessage_notfound env st uid tok hconn] at hres ⊢
    rcases hcr : createUserConnection env st uid tok with ⟨st', evs, res⟩
    rw [hcr] at hres
    cases res with
    | error e =>
      have h2 : (Except.error e : Except String String) = .ok r := hres
      cases h2
    | ok conn =>
      have hres2 : (sendMessageWithConn env st' env.postResult uid conn
          evs).result = .ok r := hres
      show r = "" ∧
        (sendMessageWithConn env st' env.postResult uid conn evs).slackOps =
          updateIfThinking env.postResult (resolveFinal rs)
      rw [sendMessageWithConn_askOk env st' env.postResult uid conn evs rs hask]
        at hres2 ⊢
      cases hcs : consentStepRun env st' uid (classify rs) with
      | error e =>
        rw [hcs] at hres2
        have h2 : (Except.error e : Except String String) = .ok r := hres2
        cases h2
      | ok sends =>
        rw [hcs] at hres2
        refine ⟨?_, rfl⟩
        have h2 : (Except.ok "" : Except String String) = .ok r := hres2
        injection h2 with h3
        exact h3.symm

/-- C4, witness. -/
theorem c4_witness :
    ("" : String) = "" ∧
    (sendMessage envC4 stC4 "u1" none).slackOps =
      updateIfThinking envC4.postResult
        (resolveFinal [{ type := "message", text := some "Hello",
                         name := none, attachments := none }]) :=
  c4_returns_empty_text envC4 stC4 "u1" none
    [{ type := "message", text := some "Hello", name := none,
       attachments := none }] "" rfl rfl

/-! ## Claim C8 — error propagation and retained session -/

/-- A failed credential resolution inside `createUserConnection` (no truthy
user token, `getServiceToken` rejects): the error is re-thrown with no
conversation started and no session stored. -/
theorem createUserConnection_tokenErr (env : Env) (st : MWState) (uid : String)
    (e : String) (cache : ServiceTokenCache) (b : Bool)
    (hg : getServiceToken env.now env.provider st.serviceTokenCache =
      (.error e, cache, b)) :
    createUserConnection env st uid none =
      ({ st with serviceTokenCache := cache }, [], .error e) := by
  unfold createUserConnection
  rw [if_neg (by simp [strTruthy] : ¬ strTruthy (none : Option String) = true), hg]
  exact createWithToken_err env e cache b st uid

/-- A failed conversation start inside `createUserConnection` (credential
resolved via the service token, `startConversationAsync` rejects): the error
is re-thrown after the start attempt, with no session stored. -/
theorem createUserConnection_startErr (env : Env) (st : MWState) (uid : String)
    (r : ProviderResponse) (e : String)
    (hp : env.provider = .ok r) (hsc : env.startConv = .error e) :
    ∃ cache, createUserConnection env st uid none =
      ({ st with serviceTokenCache := cache },
       [RegistryEv.conversationStarted], .error e) := by
  unfold createUserConnection
  rw [if_neg (by simp [strTruthy] : ¬ strTruthy (none : Option String) = true), hp]
  obtain ⟨t, cache, b, hserv⟩ := getServiceToken_ok_shape env.now r st.serviceTokenCache
  rw [hserv, createWithToken_okTok, createWithStart_err env st uid cache e hsc]
  exact ⟨cache, rfl⟩

/-- C8: every failure during a turn — credential resolution (1), session
creation (2), or the upstream send, on a freshly created session (3) as well
as on a pre-existing one (4) — is propagated to the caller as that single
error, and no partial state beyond what already succeeded is committed: on
(1) and (2) the connection registry and the token map are unchanged and no
session is stored; on (3) exactly the session created before the send is
committed and retained, with the token map untouched, so a retried turn
finds it and starts no new upstream conversation; on (4) the whole state is
unchanged and a retried turn likewise reuses the existing session. -/
theorem c8_error_propagation :
    (∀ (env : Env) (st : MWState) (uid : String) (e : String)
       (cache : ServiceTokenCache) (b : Bool),
      mapGet st.activeConnections uid = none →
      getServiceToken env.now env.provider st.serviceTokenCache =
        (.error e, cache, b) →
      (sendMessage env st uid none).result = .error e ∧
      (sendMessage env st uid none).st.activeConnections =
        st.activeConnections ∧
      (sendMessage env st uid none).st.userTokens = st.userTokens ∧
      (sendMessage env st uid none).events = []) ∧
    (∀ (env : Env) (st : MWState) (uid : String) (r : ProviderResponse)
       (e : String),
      mapGet st.activeConnections uid = none →
      env.provider = .ok r →
      env.startConv = .error e →
      (sendMessage env st uid none).result = .error e ∧
      (sendMessage env st uid none).st.activeConnections =
        st.activeConnections ∧
      (sendMessage env st uid none).st.userTokens = st.userTokens ∧
      (sendMessage env st uid none).events = [RegistryEv.conversationStarted]) ∧
    (∀ (env env2 : Env) (st : MWState) (uid : String) (r : ProviderResponse)
       (info : ConvInfo) (e : String) (tok2 : Option String),
      mapGet st.activeConnections uid = none →
      env.provider = .ok r →
      env.startConv = .ok info →
      env.ask 0 = .error e →
      (sendMessage env st uid none).result = .error e ∧
      mapGet (sendMessage env st uid none).st.activeConnections uid =
        some { conversationId := info.conversationId, lastActivity := env.now,
               userId := uid } ∧
      (sendMessage env st uid none).st.userTokens = st.userTokens ∧
      (sendMessage env st uid none).events =
        [RegistryEv.conversationStarted, RegistryEv.regSet uid] ∧
      RegistryEv.conversationStarted ∉
        (sendMessage env2 (sendMessage env st uid none).st uid tok2).events) ∧
    (∀ (env env2 : Env) (st : MWState) (uid : String) (tok tok2 : Option String)
       (conn : Connection) (e : String),
      mapGet st.activeConnections uid = some conn →
      env.ask 0 = .error e →
      (sendMessage env st uid tok).result = .error e ∧
      (sendMessage env st uid tok).st = st ∧
      (sendMessage env st uid tok).events = [] ∧
      RegistryEv.conversationStarted ∉
        (sendMessage env2 (sendMessage env st uid tok).st uid tok2).events) := by
  refine ⟨?_, ?_, ?_, ?_⟩
  · intro env st uid e cache b hconn hg
    rw [sendMessage_notfound env st uid none hconn,
        createUserConnection_tokenErr env st uid e cache b hg]
    exact ⟨rfl, rfl, rfl, rfl⟩
  · intro env st uid r e hconn hp hsc
    obtain ⟨cache, hcu⟩ := createUserConnection_startErr env st uid r e hp hsc
    rw [sendMessage_notfound env st uid none hconn, hcu]
    exact ⟨rfl, rfl, rfl, rfl⟩
  · intro env env2 st uid r info e tok2 hconn hp hs ha
    obtain ⟨cache, hcr⟩ := createUserConnection_service_ok env st uid r info hp hs
    have hsm : sendMessage env st uid none =
        sendMessageWithConn env
          ({ st with
              serviceTokenCache := cache,
              activeConnections := mapSet st.activeConnections uid
                { conversationId := info.conversationId, lastActivity := env.now,
                  userId := uid } })
          env.postResult uid
          { conversationId := info.conversationId, lastActivity := env.now,
            userId := uid }
          [RegistryEv.conversationStarted, RegistryEv.regSet uid] := by
      rw [sendMessage_notfound env st uid none hconn, hcr]
    rw [hsm, sendMessageWithConn_askErr _ _ _ _ _ _ e ha]
    refine ⟨rfl, ?_, rfl, rfl, ?_⟩
    · exact mapGet_mapSet_self ..
    · have hfound : mapGet (mapSet st.activeConnections uid
          { conversationId := info.conversationId, lastActivity := env.now,
            userId := uid }) uid =
        some { conversationId := info.conversationId, lastActivity := env.now,
               userId := uid } := mapGet_mapSet_self ..
      rw [sendMessage_found env2 _ uid tok2 _ hfound,
          sendMessageWithConn_events]
      simp
  · intro env env2 st uid tok tok2 conn e hconn ha
    rw [sendMessage_found env st uid tok conn hconn,
        sendMessageWithConn_askErr env st env.postResult uid conn [] e ha]
    refine ⟨rfl, rfl, rfl, ?_⟩
    rw [sendMessage_found env2 st uid tok2 conn hconn,
        sendMessageWithConn_events]
    simp

/-- Collaborators whose identity provider rejects (credential-resolution
failure; the empty cache forces a refresh). -/
def envC8a : Env :=
  { now := 1, provider := .error "idp down", startConv := .error "unused",
    ask := fun _ => .ok [], postResult := none }

/-- Collaborators whose conversation start rejects after a successful
client-credential grant. -/
def envC8b : Env :=
  { now := 2, provider := .ok { accessToken := "svc", expiresOn := none },
    startConv := .error "start failed", ask := fun _ => .ok [],
    postResult := none }

/-- Collaborators where creation succeeds and the upstream send fails. -/
def envC8 : Env :=
  { now := 11, provider := .ok { accessToken := "svc", expiresOn := some 99999999 },
    startConv := .ok { conversationId := some "c8conv" },
    ask := fun _ => .error "upstream down", postResult := none }

/-- Collaborators for the retried turn. -/
def envC8retry : Env :=
  { now := 12, provider := .error "unused", startConv := .error "unused",
    ask := fun _ => .ok [], postResult := none }

/-- A state with no session for `u1`, one stored token, an empty cache. -/
def stC8 : MWState :=
  { activeConnections := [], userTokens := [("u9", TokenData.legacy "t")],
    serviceTokenCache := { token := none, expiresAt := 0 } }

/-- A state holding a pre-existing session for `u1`. -/
def stC8d : MWState :=
  { activeConnections :=
      [("u1", { conversationId := some "cd", lastActivity := 3,
                userId := "u1" })],
    userTokens := [("u9", TokenData.legacy "t")],
    serviceTokenCache := { token := none, expiresAt := 0 } }

/-- C8, witness: all four failure paths of the theorem at concrete
collaborators — provider rejection, conversation-start rejection, send
rejection on a fresh session (with a successful retry lookup), and send
rejection on a pre-existing session. -/
theorem c8_witness :
    ((sendMessage envC8a stC8 "u1" none).result = .error "idp down" ∧
      (sendMessage envC8a stC8 "u1" none).st.activeConnections =
        stC8.activeConnections ∧
      (sendMessage envC8a stC8 "u1" none).st.userTokens = stC8.userTokens ∧
      (sendMessage envC8a stC8 "u1" none).events = []) ∧
    ((sendMessage envC8b stC8 "u1" none).result = .error "start failed" ∧
      (sendMessage envC8b stC8 "u1" none).st.activeConnections =
        stC8.activeConnections ∧
      (sendMessage envC8b stC8 "u1" none).st.userTokens = stC8.userTokens ∧
      (sendMessage envC8b stC8 "u1" none).events =
        [RegistryEv.conversationStarted]) ∧
    ((sendMessage envC8 stC8 "u1" none).result = .error "upstream down" ∧
      mapGet (sendMessage envC8 stC8 "u1" none).st.activeConnections "u1" =
        some { conversationId := some "c8conv", lastActivity := 11,
               userId := "u1" } ∧
      (sendMessage envC8 stC8 "u1" none).st.userTokens = stC8.userTokens ∧
      (sendMessage envC8 stC8 "u1" none).events =
        [RegistryEv.conversationStarted, RegistryEv.regSet "u1"] ∧
      RegistryEv.conversationStarted ∉
        (sendMessage envC8retry (sendMessage envC8 stC8 "u1" none).st "u1"
          none).events) ∧
    ((sendMessage envC8 stC8d "u1" none).result = .error "upstream down" ∧
      (sendMessage envC8 stC8d "u1" none).st = stC8d ∧
      (sendMessage envC8 stC8d "u1" none).events = [] ∧
      RegistryEv.conversationStarted ∉
        (sendMessage envC8retry (sendMessage envC8 stC8d "u1" none).st "u1"
          none).events) :=
  ⟨c8_error_propagation.1 envC8a stC8 "u1" "idp down"
      { token := none, expiresAt := 0 } true rfl rfl,
   c8_error_propagation.2.1 envC8b stC8 "u1"
      { accessToken := "svc", expiresOn := none } "start failed" rfl rfl rfl,
   c8_error_propagation.2.2.1 envC8 envC8retry stC8 "u1"
      { accessToken := "svc", expiresOn := some 99999999 }
      { conversationId := some "c8conv" } "upstream down" none rfl rfl rfl rfl,
   c8_error_propagation.2.2.2 envC8 envC8retry stC8d "u1" none none
      { conversationId := some "cd", lastActivity := 3, userId := "u1" }
      "upstream down" rfl rfl⟩

end SlackRelay
